import Mathlib

/-!
Shallow embedding of the RTMP handshake machinery of rtmpy
(src/rtmpy/protocol/handshake.py), together with spec-modelled fragments of
the rpc call-correlation engine, the codec stream registry and the protocol
session coordinator (whose source files are not part of src/; only their
tests are).  Byte strings are modelled as `List Nat`, Python `None` fields
as `Option`, raised exceptions as explicit error values.
-/

namespace RTMPy

/-- handshake.py: HANDSHAKE_LENGTH = 1536. -/
def HANDSHAKE_LENGTH : Nat := 1536

/-- handshake.py: RTMP_PROTOCOL_VERSION = 3 (the class attribute
`protocolVersion` of BaseNegotiator). -/
def RTMP_PROTOCOL_VERSION : Nat := 3

/-- handshake.py: MAX_PROTOCOL_VERSION = 31. -/
def MAX_PROTOCOL_VERSION : Nat := 31

/-- The exception classes that handshake.py can raise while negotiating.
In Python, ProtocolTooHigh and ProtocolDegraded subclass ProtocolVersionError,
which subclasses HandshakeError; VerificationError subclasses HandshakeError.
Here each raised exception is tagged by its exact (most derived) class.
`attributeError` stands for a Python AttributeError on a missing attribute
(unreachable through the public negotiator API, but kept for totality). -/
inductive HSError where
  | handshakeError (msg : String)
  | protocolVersionError (msg : String)
  | protocolTooHigh (msg : String)
  | protocolDegraded (msg : String)
  | verificationError (msg : String)
  | attributeError (msg : String)
deriving DecidableEq, Repr

/-- True iff the raised exception is (an instance of) VerificationError.
VerificationError has no subclasses in the source. -/
def HSError.isVerificationError : HSError → Bool
  | .verificationError _ => true
  | _ => false

/-- handshake.py Packet: `first`/`second` are 32-bit unsigned ints, start out
as None; `payload` is a byte string; `timestamp` is set by `__init__`. -/
structure Packet where
  first : Option Nat
  second : Option Nat
  payload : List Nat
  timestamp : Nat
deriving DecidableEq, Repr

/-- Packet.__init__: `timestamp = kwargs.get('timestamp', None)` and
`if not timestamp: kwargs['timestamp'] = int(time.time())` — an absent or
falsy (0) timestamp is replaced by the current time `now`. -/
def Packet.init (now : Nat) (first second : Option Nat) (payload : List Nat)
    (timestamp : Option Nat) : Packet :=
  match timestamp with
  | none => { first := first, second := second, payload := payload, timestamp := now }
  | some 0 => { first := first, second := second, payload := payload, timestamp := now }
  | some t => { first := first, second := second, payload := payload, timestamp := t }

/-- pyamf BufferedByteStream.write_ulong: big-endian 32-bit encoding. -/
def write_ulong (n : Nat) : List Nat :=
  [n / 16777216 % 256, n / 65536 % 256, n / 256 % 256, n % 256]

/-- pyamf BufferedByteStream.read_ulong: reads 4 bytes big-endian; fails
(IOError) when fewer than 4 bytes remain. -/
def read_ulong : List Nat → Option (Nat × List Nat)
  | b0 :: b1 :: b2 :: b3 :: rest => some (((b0 * 256 + b1) * 256 + b2) * 256 + b3, rest)
  | _ => none

/-- Packet.encode: writes `first or 0`, `second or 0` as big-endian uint32,
then the raw payload bytes.  Note the source performs no length check on the
payload: `buffer.write(self.payload)` accepts any byte string. -/
def Packet.encode (p : Packet) : List Nat :=
  write_ulong (p.first.getD 0) ++ write_ulong (p.second.getD 0) ++ p.payload

/-- Packet.decode, applied to a fresh `Packet()` (whose `__init__` sets the
timestamp to `now`): reads `first`, `second` and a payload of
HANDSHAKE_LENGTH - 8 bytes, returning the packet and the unconsumed rest of
the buffer; fails (IOError from the underlying stream) when fewer bytes
remain. -/
def Packet.decode (now : Nat) (buf : List Nat) : Option (Packet × List Nat) :=
  match read_ulong buf with
  | none => none
  | some (f, buf1) =>
    match read_ulong buf1 with
    | none => none
    | some (s, buf2) =>
      if HANDSHAKE_LENGTH - 8 ≤ buf2.length then
        some ({ first := some f, second := some s,
                payload := buf2.take (HANDSHAKE_LENGTH - 8), timestamp := now },
              buf2.drop (HANDSHAKE_LENGTH - 8))
      else none

/-- Observer callbacks emitted by a negotiator
(IHandshakeObserver: write / handshakeSuccess / handshakeFailure). -/
inductive Event where
  | write (data : List Nat)
  | handshakeSuccess
  | handshakeFailure (e : HSError)
deriving DecidableEq, Repr

/-- True iff the event is a handshakeFailure callback. -/
def Event.isFailure : Event → Bool
  | .handshakeFailure _ => true
  | _ => false

/-- The mutable state of a BaseNegotiator (handshake.py).  The buffer holds
the received-but-unconsumed bytes (the BufferedByteStream read side; every
write path truncates the buffer before and after producing outgoing bytes,
so outgoing data appears only in `Event.write`). -/
structure NegotiatorState where
  started : Bool
  buffer : List Nat
  peer_version : Option Nat
  my_syn : Option Packet
  my_ack : Option Packet
  peer_syn : Option Packet
  peer_ack : Option Packet
deriving DecidableEq, Repr

/-- BaseNegotiator.getPeerPacket: returns None when fewer than
HANDSHAKE_LENGTH bytes are buffered, otherwise decodes a fresh Packet
(whose construction timestamp is `now`) from the buffer. -/
def getPeerPacket (now : Nat) (buf : List Nat) : Option (Packet × List Nat) :=
  if buf.length < HANDSHAKE_LENGTH then none
  else Packet.decode now buf

/-- ClientNegotiator.start (via BaseNegotiator.start): raises HandshakeError
on restart; otherwise resets the state, builds
`my_syn = Packet(first=uptime, second=version)`, fills its payload with
random bytes (`buildSynPayload` / `generate_payload`, modelled by the
parameter `rand`), and writes the protocol version byte followed by the
encoded syn in a single observer write (`writeVersionAndSyn`). -/
def ClientNegotiator.start (now : Nat) (rand : List Nat) (uptime version : Nat)
    (s : NegotiatorState) : Except HSError (NegotiatorState × List Event) :=
  if s.started then
    .error (.handshakeError "Handshake negotiator cannot be restarted")
  else
    let my_syn : Packet :=
      { Packet.init now (some uptime) (some version) [] none with payload := rand }
    .ok ({ started := true, buffer := [], peer_version := none,
           my_syn := some my_syn, my_ack := none,
           peer_syn := none, peer_ack := none },
         [.write (RTMP_PROTOCOL_VERSION :: my_syn.encode)])

/-- ClientNegotiator.versionReceived: first the BaseNegotiator checks
(equal: fine; above MAX_PROTOCOL_VERSION: ProtocolVersionError; above the
local protocolVersion: ProtocolTooHigh), then the client additionally raises
ProtocolDegraded when the peer version is below the local protocolVersion.
Returns the raised exception, if any. -/
def ClientNegotiator.versionReceived (v : Nat) : Option HSError :=
  if v = RTMP_PROTOCOL_VERSION then none
  else if MAX_PROTOCOL_VERSION < v then
    some (.protocolVersionError "Invalid protocol version")
  else if RTMP_PROTOCOL_VERSION < v then
    some (.protocolTooHigh "Unexpected protocol version")
  else if v < RTMP_PROTOCOL_VERSION then
    some (.protocolDegraded "Protocol version did not match")
  else none

/-- ClientNegotiator.ackReceived: requires an empty buffer after the ack,
requires `peer_ack.first == my_syn.first` and
`peer_ack.payload == my_syn.payload` (VerificationError otherwise), then
builds `my_ack = Packet(first=peer_syn.first, second=my_syn.timestamp)`,
fills its payload with random bytes (`buildAckPayload` / `generate_payload`,
modelled by `ackRand`) and writes its encoding (`writeAck`).  The result is
the state after the call, the observer events it emitted, and the raised
exception if any. -/
def ClientNegotiator.ackReceived (now : Nat) (ackRand : List Nat)
    (s : NegotiatorState) : NegotiatorState × List Event × Option HSError :=
  match s.my_syn, s.peer_syn, s.peer_ack with
  | some my_syn, some peer_syn, some peer_ack =>
    if s.buffer.length ≠ 0 then
      (s, [], some (.handshakeError "Unexpected trailing data after peer ack"))
    else if peer_ack.first ≠ my_syn.first then
      (s, [], some (.verificationError "Received uptime is not the same"))
    else if peer_ack.payload ≠ my_syn.payload then
      (s, [], some (.verificationError "Received payload is not the same"))
    else
      let my_ack : Packet :=
        { Packet.init now peer_syn.first (some my_syn.timestamp) [] none with
            payload := ackRand }
      ({ s with my_ack := some my_ack, buffer := [] },
       [.write my_ack.encode], none)
  | _, _, _ => (s, [], some (.attributeError "negotiator attribute not set"))

/-- BaseNegotiator._process, ack stage, for the client: skips when peer_ack
is already set (a Packet object is always truthy), otherwise extracts the
packet when enough bytes are buffered and runs ackReceived; falling through
all stages emits handshakeSuccess. -/
def ClientNegotiator.processAck (now : Nat) (ackRand : List Nat)
    (s : NegotiatorState) : NegotiatorState × List Event × Option HSError :=
  match s.peer_ack with
  | some _ => (s, [.handshakeSuccess], none)
  | none =>
    match getPeerPacket now s.buffer with
    | none => (s, [], none)
    | some (pkt, rest) =>
      match ClientNegotiator.ackReceived now ackRand
          { s with peer_ack := some pkt, buffer := rest } with
      | (s2, evs, some e) => (s2, evs, some e)
      | (s2, evs, none) => (s2, evs ++ [.handshakeSuccess], none)

/-- BaseNegotiator._process, syn stage, for the client: skips when peer_syn
is already set, otherwise extracts the packet when enough bytes are buffered
(ClientNegotiator.synReceived is a no-op) and continues with the ack
stage. -/
def ClientNegotiator.processSyn (now : Nat) (ackRand : List Nat)
    (s : NegotiatorState) : NegotiatorState × List Event × Option HSError :=
  match s.peer_syn with
  | some _ => ClientNegotiator.processAck now ackRand s
  | none =>
    match getPeerPacket now s.buffer with
    | none => (s, [], none)
    | some (pkt, rest) =>
      ClientNegotiator.processAck now ackRand
        { s with peer_syn := some pkt, buffer := rest }

/-- BaseNegotiator._process for the client: reads the peer version byte when
`not self.peer_version` (None or the falsy byte 0), runs versionReceived,
then the syn and ack stages. -/
def ClientNegotiator.process (now : Nat) (ackRand : List Nat)
    (s : NegotiatorState) : NegotiatorState × List Event × Option HSError :=
  if s.peer_version = none ∨ s.peer_version = some 0 then
    match s.buffer with
    | [] => (s, [], none)
    | b :: rest =>
      let s1 := { s with peer_version := some b, buffer := rest }
      match ClientNegotiator.versionReceived b with
      | some e => (s1, [], some e)
      | none => ClientNegotiator.processSyn now ackRand s1
  else ClientNegotiator.processSyn now ackRand s

/-- BaseNegotiator.dataReceived: raises HandshakeError when not started,
otherwise appends the data to the buffer and processes it; the whole body
runs inside `try: ... except:` and any raised exception is reported to the
observer through a single handshakeFailure callback, so the function itself
always returns normally (a total function here). -/
def ClientNegotiator.dataReceived (now : Nat) (ackRand : List Nat)
    (s : NegotiatorState) (data : List Nat) : NegotiatorState × List Event :=
  if s.started = false then
    (s, [.handshakeFailure
          (.handshakeError "Data was received, but negotiator was not started")])
  else
    match ClientNegotiator.process now ackRand
        { s with buffer := s.buffer ++ data } with
    | (s1, evs, none) => (s1, evs)
    | (s1, evs, some e) => (s1, evs ++ [.handshakeFailure e])

/-- Modelled from the spec: the observable state of the protocol session
coordinator (rtmp.BaseProtocol; the source file rtmp.py is not under src/,
only its tests are).  `state` is the current phase, `handshakerBuffer` the
residual unconsumed bytes held by the negotiator (none once the negotiator
has been discarded), `decoderInput` the concatenation of all bytes handed to
the chunk stream decoder so far. -/
structure ProtocolState where
  state : String
  handshakerBuffer : Option (List Nat)
  decoderBuilt : Bool
  decoderInput : List Nat
deriving DecidableEq, Repr

/-- Modelled from the spec: rtmp.BaseProtocol.handshakeSuccess (rtmp.py is
not under src/).  On handshakeSuccess the coordinator constructs the chunk
decoder and encoder, switches to the streaming phase, discards the
negotiator, and immediately replays every byte the negotiator still held in
its buffer into the newly constructed decoder as stream-decode input
(spec section 4.5; test_rtmp.ServerProtocolTestCase.test_handshake_overflow). -/
def BaseProtocol.handshakeSuccess (s : ProtocolState) : ProtocolState :=
  { state := "stream",
    handshakerBuffer := none,
    decoderBuilt := true,
    decoderInput := s.decoderInput ++ s.handshakerBuffer.getD [] }

/-- Modelled from the spec: the pending-call context stored by the rpc call
correlation engine (rpc.py is not under src/): result handle, method name,
original arguments and optional command map (spec section 4.4). -/
structure CallContext where
  resultHandle : Nat
  methodName : String
  args : List String
  command : Option String
deriving DecidableEq, Repr

/-- Modelled from the spec: rpc.BaseCallHandler state — a monotonically
increasing call id counter starting at 1, and the table of active calls
keyed by call id. -/
structure CallHandler where
  lastCallId : Nat
  activeCalls : List (Nat × CallContext)
deriving DecidableEq, Repr

/-- Modelled from the spec: rpc.BaseCallHandler.isCallActive — true iff a
context is currently stored for the id. -/
def CallHandler.isCallActive (h : CallHandler) (callId : Nat) : Bool :=
  (h.activeCalls.lookup callId).isSome

/-- Modelled from the spec: rpc.BaseCallHandler.finishCall — atomically
removes and returns the stored context, or none when the id is not active
(no error; unsolicited or duplicate responses are tolerated). -/
def CallHandler.finishCall (h : CallHandler) (callId : Nat) :
    CallHandler × Option CallContext :=
  match h.activeCalls.lookup callId with
  | none => (h, none)
  | some ctx =>
    ({ h with activeCalls := h.activeCalls.filter (fun kv => kv.1 != callId) },
     some ctx)

/-- Modelled from the spec: the effect of a response on the pending call
result handle (deferred): resolved with the response args, rejected with a
failure value wrapping the args, or left untouched. -/
inductive ResponseAction where
  | resolved (args : List String)
  | rejected (args : List String)
  | noAction
deriving DecidableEq, Repr

/-- Modelled from the spec: rpc handleResponse(responseKind, id, args)
(rpc.py is not under src/): looks up and finishes the call for the id; when
none is active the response is silently dropped.  A recognised success kind
resolves the result handle with the args, a recognised error kind rejects it
with a failure wrapping the args, and any unrecognised kind removes the call
from tracking without resolving the handle either way (spec section 4.4;
test_rpc.CallResponseTestCase.test_unknown_response). -/
def CallHandler.handleResponse (h : CallHandler) (kind : String) (callId : Nat)
    (args : List String) : CallHandler × ResponseAction :=
  match h.finishCall callId with
  | (h1, none) => (h1, .noAction)
  | (h1, some _) =>
    if kind = "_result" then (h1, .resolved args)
    else if kind = "_error" then (h1, .rejected args)
    else (h1, .noAction)

/-- Modelled from the spec: a stream handle registered with the chunk codec;
`providesIStream` records whether the handle satisfies the expected stream
capability set (interfaces.IStream), `tag` is its identity. -/
structure Stream where
  providesIStream : Bool
  tag : Nat
deriving DecidableEq, Repr

/-- Modelled from the spec: the errors raised by
codec.BaseCodec.registerStream — a range error (ValueError), a type error
(TypeError) and an already-registered error (IndexError), per
test_rtmp.StreamManagerTestCase.test_registerStream. -/
inductive RegisterError where
  | rangeError (msg : String)
  | typeError (msg : String)
  | alreadyRegistered (msg : String)
deriving DecidableEq, Repr

/-- Modelled from the spec: the codec stream registry
(codec.BaseCodec.streams; codec.py is not under src/). -/
structure BaseCodec where
  streams : List (Int × Stream)
deriving DecidableEq, Repr

/-- Modelled from the spec: codec.BaseCodec.registerStream(streamId, stream):
fails with a range error for ids outside [0, 65535], a type error when the
handle does not provide the stream capability set, and an already-registered
error when the id is occupied; each failure leaves the registry unchanged.
On success the stream is added under the id; the same stream may occupy
several ids simultaneously. -/
def BaseCodec.registerStream (c : BaseCodec) (streamId : Int) (stream : Stream) :
    BaseCodec × Option RegisterError :=
  if streamId < 0 ∨ 65535 < streamId then
    (c, some (.rangeError "streamId is not in range"))
  else if stream.providesIStream = false then
    (c, some (.typeError "IStream interface expected"))
  else if (c.streams.lookup streamId).isSome then
    (c, some (.alreadyRegistered "Stream already registered"))
  else
    ({ streams := c.streams ++ [(streamId, stream)] }, none)

/-- A concrete syn packet used to instantiate negotiator states. -/
def mySynW : Packet :=
  { first := some 11, second := some 3, payload := List.replicate 1528 9,
    timestamp := 77 }

/-- A concrete negotiator state that has not been started. -/
def freshNeg : NegotiatorState :=
  { started := false, buffer := [], peer_version := none, my_syn := none,
    my_ack := none, peer_syn := none, peer_ack := none }

/-- A concrete started client negotiator state, before the peer version byte
has arrived. -/
def startedNeg : NegotiatorState :=
  { started := true, buffer := [], peer_version := none,
    my_syn := some mySynW, my_ack := none, peer_syn := none, peer_ack := none }

/-- A concrete packet whose payload has the correct length
HANDSHAKE_LENGTH - 8 = 1528. -/
def goodPacket : Packet :=
  { first := some 1, second := some 2, payload := List.replicate 1528 7,
    timestamp := 5 }

/-- A concrete packet whose payload has length 3, not 1528. -/
def badPacket : Packet :=
  { first := some 1, second := some 2, payload := [7, 8, 9], timestamp := 5 }

/-- A concrete peer syn packet. -/
def peerSynW : Packet :=
  { first := some 21, second := some 22, payload := List.replicate 1528 4,
    timestamp := 55 }

/-- A concrete started client negotiator state that has received the peer
version byte (3) and the peer syn, and awaits the peer ack. -/
def ackNeg : NegotiatorState :=
  { started := true, buffer := [], peer_version := some 3,
    my_syn := some mySynW, my_ack := none, peer_syn := some peerSynW,
    peer_ack := none }

/-- The wire bytes of a peer ack that correctly echoes mySynW (first = 11,
payload = 1528 bytes of 9). -/
def ackPkt : Packet :=
  { first := some 11, second := some 77, payload := List.replicate 1528 9,
    timestamp := 1 }

/-- The wire bytes of that peer ack. -/
def ackData : List Nat := Packet.encode ackPkt

/-- The peer ack packet as decoded from ackData at time 42. -/
def ackA : Packet :=
  { first := some 11, second := some 77, payload := List.replicate 1528 9,
    timestamp := 42 }

/-- A concrete pending-call context. -/
def ctxW : CallContext :=
  { resultHandle := 1, methodName := "some_remote_method", args := [],
    command := none }

/-- A concrete call handler with one active call (id 1). -/
def handlerW : CallHandler := { lastCallId := 1, activeCalls := [(1, ctxW)] }

/-- A concrete handle that provides the stream capability set. -/
def streamW : Stream := { providesIStream := true, tag := 0 }

/-- A concrete handle that does not provide the stream capability set. -/
def nonStreamW : Stream := { providesIStream := false, tag := 1 }

/-- A concrete empty codec registry. -/
def codecW : BaseCodec := { streams := [] }

theorem read_ulong_write_ulong (a : Nat) (l : List Nat) (h : a < 4294967296) :
    read_ulong (write_ulong a ++ l) = some (a, l) := by
  simp only [write_ulong, read_ulong, List.cons_append, List.nil_append,
    Option.some.injEq, Prod.mk.injEq]
  exact ⟨by omega, trivial⟩

theorem encode_length (q : Packet) : q.encode.length = 8 + q.payload.length := by
  simp [Packet.encode, write_ulong]
  omega

/-- Decoding the encoding of a packet with a payload of HANDSHAKE_LENGTH - 8
bytes recovers first, second (unset fields as 0) and the payload, and
consumes the whole encoding. -/
theorem decode_encode (now : Nat) (p : Packet)
    (hlen : p.payload.length = HANDSHAKE_LENGTH - 8)
    (hf : p.first.getD 0 < 4294967296) (hs : p.second.getD 0 < 4294967296) :
    Packet.decode now p.encode =
      some ({ first := some (p.first.getD 0), second := some (p.second.getD 0),
              payload := p.payload, timestamp := now }, []) := by
  have e : p.encode =
      write_ulong (p.first.getD 0) ++
        (write_ulong (p.second.getD 0) ++ p.payload) := by
    simp [Packet.encode]
  rw [Packet.decode, e, read_ulong_write_ulong _ _ hf]
  simp only [read_ulong_write_ulong _ _ hs]
  rw [if_pos (le_of_eq hlen.symm)]
  rw [← hlen, List.take_length, List.drop_length]

/-- Decoding the encoding of a full-payload packet followed by extra bytes
recovers the packet and leaves the extra bytes unconsumed. -/
theorem decode_encode_append (now : Nat) (p : Packet) (extra : List Nat)
    (hlen : p.payload.length = HANDSHAKE_LENGTH - 8)
    (hf : p.first.getD 0 < 4294967296) (hs : p.second.getD 0 < 4294967296) :
    Packet.decode now (p.encode ++ extra) =
      some ({ first := some (p.first.getD 0), second := some (p.second.getD 0),
              payload := p.payload, timestamp := now }, extra) := by
  have e : p.encode ++ extra =
      write_ulong (p.first.getD 0) ++
        (write_ulong (p.second.getD 0) ++ (p.payload ++ extra)) := by
    simp [Packet.encode]
  rw [Packet.decode, e, read_ulong_write_ulong _ _ hf]
  simp only [read_ulong_write_ulong _ _ hs]
  rw [if_pos (by rw [List.length_append, hlen]; omega)]
  rw [← hlen, List.take_left, List.drop_left]

theorem ackPkt_payload_length : ackPkt.payload.length = HANDSHAKE_LENGTH - 8 := by
  rw [show ackPkt.payload = List.replicate 1528 9 from rfl,
    List.length_replicate]
  norm_num [HANDSHAKE_LENGTH]

theorem ackData_length : ackData.length = HANDSHAKE_LENGTH := by
  rw [ackData, encode_length, ackPkt_payload_length]
  norm_num [HANDSHAKE_LENGTH]

theorem ackData_decode_append (extra : List Nat) :
    Packet.decode 42 (ackData ++ extra) = some (ackA, extra) := by
  rw [ackData]
  exact decode_encode_append 42 ackPkt extra ackPkt_payload_length
    (by decide) (by decide)

theorem ackData_decode : Packet.decode 42 ackData = some (ackA, []) := by
  have h := ackData_decode_append []
  simpa using h

/-- C10: Packet.__init__ replaces a falsy timestamp argument — an absent
timestamp or an explicit timestamp of 0 — with the current time, and since
the current time is positive the constructed timestamp is never 0. -/
theorem packet_init_timestamp (now : Nat) (first second : Option Nat)
    (payload : List Nat) (ts : Option Nat) (hnow : 0 < now) :
    (Packet.init now first second payload (some 0)).timestamp = now ∧
    (Packet.init now first second payload none).timestamp = now ∧
    (Packet.init now first second payload ts).timestamp ≠ 0 := by
  refine ⟨rfl, rfl, ?_⟩
  match ts with
  | none => simp only [Packet.init]; omega
  | some 0 => simp only [Packet.init]; omega
  | some (t + 1) => simp only [Packet.init]; omega

/-- C10 witness: Packet.__init__ at the concrete time 99 with an explicit
timestamp of 0. -/
theorem packet_init_timestamp_witness :
    (Packet.init 99 none none [] (some 0)).timestamp = 99 ∧
    (Packet.init 99 none none [] none).timestamp = 99 ∧
    (Packet.init 99 none none [] (some 0)).timestamp ≠ 0 :=
  packet_init_timestamp 99 none none [] (some 0) (by decide)

/-- C3 (amended): decoding the bytes produced by encoding a packet with a
1528-byte payload yields the same first, second and payload fields (unset
first/second encode as 0); encoding a packet whose payload length is not
1528 does NOT fail — Packet.encode performs no length check and always
emits 8 + payload-length bytes. -/
theorem packet_roundtrip (now : Nat) (p : Packet)
    (hlen : p.payload.length = 1528)
    (hf : p.first.getD 0 < 4294967296) (hs : p.second.getD 0 < 4294967296) :
    Packet.decode now p.encode =
      some ({ first := some (p.first.getD 0), second := some (p.second.getD 0),
              payload := p.payload, timestamp := now }, []) ∧
    ∀ q : Packet, q.encode.length = 8 + q.payload.length := by
  refine ⟨decode_encode now p ?_ hf hs, encode_length⟩
  simpa [HANDSHAKE_LENGTH] using hlen

/-- C3 witness: the round trip at a concrete packet with a 1528-byte
payload. -/
theorem packet_roundtrip_witness :
    Packet.decode 42 goodPacket.encode =
      some ({ first := some 1, second := some 2,
              payload := List.replicate 1528 7, timestamp := 42 }, []) ∧
    ∀ q : Packet, q.encode.length = 8 + q.payload.length :=
  packet_roundtrip 42 goodPacket (List.length_replicate 1528 7) (by decide)
    (by decide)

/-- C3 counterexample: the claim says encoding a packet whose payload length
is not 1528 bytes fails, but Packet.encode is total and performs no length
check: at this concrete packet with a 3-byte payload it returns a
well-defined 11-byte encoding (rather than failing), of length different
from HANDSHAKE_LENGTH. -/
theorem encode_wrong_length_does_not_fail :
    badPacket.payload.length = 3 ∧
    badPacket.encode = [0, 0, 0, 1, 0, 0, 0, 2, 7, 8, 9] ∧
    badPacket.encode.length ≠ HANDSHAKE_LENGTH := by
  refine ⟨rfl, rfl, by decide⟩

/-- C5: starting a fresh ClientNegotiator builds my_syn with first = uptime,
second = version and a random 1528-byte payload, and emits a single observer
write of the protocol version byte followed by the 1536-byte encoding of
my_syn. -/
theorem client_start_writes (now uptime version : Nat) (rand : List Nat)
    (s : NegotiatorState) (hst : s.started = false)
    (hrand : rand.length = 1528) :
    ∃ (s1 : NegotiatorState) (syn : Packet),
      ClientNegotiator.start now rand uptime version s =
        .ok (s1, [.write (RTMP_PROTOCOL_VERSION :: syn.encode)]) ∧
      s1.started = true ∧ s1.my_syn = some syn ∧
      syn.first = some uptime ∧ syn.second = some version ∧
      syn.payload = rand ∧ syn.encode.length = HANDSHAKE_LENGTH := by
  unfold ClientNegotiator.start
  rw [if_neg (by simp [hst])]
  refine ⟨_, _, rfl, rfl, rfl, rfl, rfl, rfl, ?_⟩
  rw [encode_length]
  simp [hrand, HANDSHAKE_LENGTH]

/-- C5 witness: starting a concrete fresh client negotiator. -/
theorem client_start_writes_witness :
    ∃ (s1 : NegotiatorState) (syn : Packet),
      ClientNegotiator.start 42 (List.replicate 1528 3) 9 10 freshNeg =
        .ok (s1, [.write (RTMP_PROTOCOL_VERSION :: syn.encode)]) ∧
      s1.started = true ∧ s1.my_syn = some syn ∧
      syn.first = some 9 ∧ syn.second = some 10 ∧
      syn.payload = List.replicate 1528 3 ∧
      syn.encode.length = HANDSHAKE_LENGTH :=
  client_start_writes 42 9 10 (List.replicate 1528 3) freshNeg rfl
    (List.length_replicate 1528 3)

/-- Receiving a single byte in the version stage: the resulting observer
events are a single handshakeFailure when versionReceived raises, and
nothing otherwise. -/
theorem dataReceived_version_step (now : Nat) (aR : List Nat)
    (s : NegotiatorState) (v : Nat) (hstart : s.started = true)
    (hv : s.peer_version = none) (hbuf : s.buffer = [])
    (hsyn : s.peer_syn = none) :
    (ClientNegotiator.dataReceived now aR s [v]).2 =
      match ClientNegotiator.versionReceived v with
      | some e => [.handshakeFailure e]
      | none => [] := by
  unfold ClientNegotiator.dataReceived
  rw [hstart]
  simp only [Bool.true_eq_false, if_false]
  unfold ClientNegotiator.process
  simp only [hbuf, hv, List.nil_append]
  rw [if_pos (Or.inl trivial)]
  cases hvr : ClientNegotiator.versionReceived v with
  | some e => rfl
  | none =>
    unfold ClientNegotiator.processSyn
    simp only [hsyn]
    unfold getPeerPacket
    rw [if_pos (by norm_num [HANDSHAKE_LENGTH])]

/-- C2: for a started ClientNegotiator (local protocolVersion 3) receiving
the peer version byte v: the handshake fails with ProtocolVersionError iff
v is above 31, with ProtocolTooHigh iff 3 < v and v is at most 31, and with
ProtocolDegraded iff v is below 3; v = 3 produces no error and no event. -/
theorem client_version_errors (now : Nat) (aR : List Nat)
    (s : NegotiatorState) (v : Nat) (hstart : s.started = true)
    (hv : s.peer_version = none) (hbuf : s.buffer = [])
    (hsyn : s.peer_syn = none) (hbyte : v < 256) :
    ((ClientNegotiator.dataReceived now aR s [v]).2 =
        [.handshakeFailure (.protocolVersionError "Invalid protocol version")] ↔
      31 < v) ∧
    ((ClientNegotiator.dataReceived now aR s [v]).2 =
        [.handshakeFailure (.protocolTooHigh "Unexpected protocol version")] ↔
      3 < v ∧ v ≤ 31) ∧
    ((ClientNegotiator.dataReceived now aR s [v]).2 =
        [.handshakeFailure (.protocolDegraded "Protocol version did not match")] ↔
      v < 3) ∧
    (v = 3 → (ClientNegotiator.dataReceived now aR s [v]).2 = []) := by
  rw [dataReceived_version_step now aR s v hstart hv hbuf hsyn]
  unfold ClientNegotiator.versionReceived
  simp only [RTMP_PROTOCOL_VERSION, MAX_PROTOCOL_VERSION]
  rcases Nat.lt_trichotomy v 3 with h | h | h
  · rw [if_neg (by omega), if_neg (by omega), if_neg (by omega), if_pos h]
    refine ⟨by simp; omega, by simp; omega, by simp; omega,
      fun h3 => absurd h3 (by omega)⟩
  · rw [if_pos h]
    refine ⟨by simp; omega, by simp; omega, by simp; omega,
      fun _ => rfl⟩
  · by_cases h31 : 31 < v
    · rw [if_neg (by omega), if_pos h31]
      refine ⟨by simp; omega, by simp; omega, by simp; omega,
        fun h3 => absurd h3 (by omega)⟩
    · rw [if_neg (by omega), if_neg h31, if_pos h]
      refine ⟨by simp; omega, by simp; omega, by simp; omega,
        fun h3 => absurd h3 (by omega)⟩

/-- C2 witness: the concrete started client negotiator receiving the peer
version byte 40 fails with ProtocolVersionError. -/
theorem client_version_errors_witness :
    (ClientNegotiator.dataReceived 1 [] startedNeg [40]).2 =
      [.handshakeFailure (.protocolVersionError "Invalid protocol version")] :=
  (client_version_errors 1 [] startedNeg 40 rfl rfl rfl rfl
    (by decide)).1.mpr (by decide)

/-- Running the client negotiator from a state where my_syn, the peer
version and the peer syn are set and the buffered bytes plus the received
data decode as the peer ack packet A followed by `rest`: the four possible
outcomes of ackReceived. -/
theorem client_ack_run (now : Nat) (aR data : List Nat) (s : NegotiatorState)
    (msyn psyn A : Packet) (v : Nat) (rest : List Nat)
    (hstart : s.started = true) (hv : s.peer_version = some v) (hv0 : v ≠ 0)
    (hmy : s.my_syn = some msyn) (hps : s.peer_syn = some psyn)
    (hpa : s.peer_ack = none)
    (hlen : HANDSHAKE_LENGTH ≤ (s.buffer ++ data).length)
    (hdec : Packet.decode now (s.buffer ++ data) = some (A, rest)) :
    (rest ≠ [] →
      (ClientNegotiator.dataReceived now aR s data).2 =
        [.handshakeFailure
          (.handshakeError "Unexpected trailing data after peer ack")]) ∧
    (rest = [] → A.first ≠ msyn.first →
      (ClientNegotiator.dataReceived now aR s data).2 =
        [.handshakeFailure
          (.verificationError "Received uptime is not the same")]) ∧
    (rest = [] → A.first = msyn.first → A.payload ≠ msyn.payload →
      (ClientNegotiator.dataReceived now aR s data).2 =
        [.handshakeFailure
          (.verificationError "Received payload is not the same")]) ∧
    (rest = [] → A.first = msyn.first → A.payload = msyn.payload →
      (ClientNegotiator.dataReceived now aR s data).2 =
        [.write ({ Packet.init now psyn.first (some msyn.timestamp) [] none with
                     payload := aR }).encode, .handshakeSuccess] ∧
      (ClientNegotiator.dataReceived now aR s data).1.my_ack =
        some { Packet.init now psyn.first (some msyn.timestamp) [] none with
                 payload := aR }) := by
  have hfalsy : ¬(({ s with buffer := s.buffer ++ data } :
      NegotiatorState).peer_version = none ∨
      ({ s with buffer := s.buffer ++ data } :
      NegotiatorState).peer_version = some 0) := by
    simp [hv, hv0]
  unfold ClientNegotiator.dataReceived
  rw [hstart]
  simp only [Bool.true_eq_false, if_false]
  unfold ClientNegotiator.process
  rw [if_neg hfalsy]
  unfold ClientNegotiator.processSyn
  simp only [hps]
  unfold ClientNegotiator.processAck
  simp only [hpa]
  unfold getPeerPacket
  rw [if_neg (by omega)]
  rw [hdec]
  unfold ClientNegotiator.ackReceived
  simp only [hmy, hps]
  refine ⟨?_, ?_, ?_, ?_⟩
  · intro hr
    rw [if_pos (fun h0 => hr (List.length_eq_zero.mp h0))]
    rfl
  · intro hr hne
    rw [hr]
    rw [if_neg (by simp), if_pos hne]
    rfl
  · intro hr hfe hne
    rw [hr]
    rw [if_neg (by simp), if_neg (by simp [hfe]), if_pos hne]
    rfl
  · intro hr hfe hpe
    rw [hr]
    rw [if_neg (by simp), if_neg (by simp [hfe]), if_neg (by simp [hpe])]
    exact ⟨rfl, rfl⟩

/-- C1: a started ClientNegotiator that holds my_syn, the peer version and
the peer syn, on receipt of the full peer ack packet A (exactly
HANDSHAKE_LENGTH bytes): when A.first differs from my_syn.first or
A.payload differs from my_syn.payload a VerificationError is reported;
otherwise my_ack is built as Packet(first=peer_syn.first,
second=my_syn.timestamp) and its encoding is written to the observer. -/
theorem client_ack_verification (now : Nat) (aR data : List Nat)
    (s : NegotiatorState) (msyn psyn A : Packet) (v : Nat)
    (hstart : s.started = true) (hv : s.peer_version = some v) (hv0 : v ≠ 0)
    (hmy : s.my_syn = some msyn) (hps : s.peer_syn = some psyn)
    (hpa : s.peer_ack = none)
    (hlen : (s.buffer ++ data).length = HANDSHAKE_LENGTH)
    (hdec : Packet.decode now (s.buffer ++ data) = some (A, [])) :
    ((A.first ≠ msyn.first ∨ A.payload ≠ msyn.payload) →
      ∃ m, (ClientNegotiator.dataReceived now aR s data).2 =
        [.handshakeFailure (.verificationError m)]) ∧
    (A.first = msyn.first → A.payload = msyn.payload →
      (ClientNegotiator.dataReceived now aR s data).2 =
        [.write ({ Packet.init now psyn.first (some msyn.timestamp) [] none with
                     payload := aR }).encode, .handshakeSuccess] ∧
      (ClientNegotiator.dataReceived now aR s data).1.my_ack =
        some { Packet.init now psyn.first (some msyn.timestamp) [] none with
                 payload := aR }) := by
  have h := client_ack_run now aR data s msyn psyn A v [] hstart hv hv0 hmy hps
    hpa (le_of_eq hlen.symm) hdec
  refine ⟨?_, fun h1 h2 => h.2.2.2 rfl h1 h2⟩
  intro hor
  by_cases hf : A.first = msyn.first
  · rcases hor with h1 | h2
    · exact absurd hf h1
    · exact ⟨_, h.2.2.1 rfl hf h2⟩
  · exact ⟨_, h.2.1 rfl hf⟩

/-- C1 witness: the concrete negotiator receiving the matching peer ack
writes the encoded my_ack and reports success. -/
theorem client_ack_verification_witness :
    (ClientNegotiator.dataReceived 42 (List.replicate 1528 5) ackNeg
        ackData).2 =
      [.write ({ Packet.init 42 (some 21) (some 77) [] none with
                   payload := List.replicate 1528 5 }).encode,
       .handshakeSuccess] ∧
    (ClientNegotiator.dataReceived 42 (List.replicate 1528 5) ackNeg
        ackData).1.my_ack =
      some { Packet.init 42 (some 21) (some 77) [] none with
               payload := List.replicate 1528 5 } :=
  (client_ack_verification 42 (List.replicate 1528 5) ackData ackNeg
    mySynW peerSynW ackA 3 rfl rfl (by decide) rfl rfl rfl
    (by simpa [ackNeg] using ackData_length)
    (by simpa [ackNeg] using ackData_decode)).2 rfl rfl

/-- C6 (amended): when bytes remain buffered after the full peer ack has
been consumed, the handshake fails — but with the generic HandshakeError
(message: unexpected trailing data), not with a VerificationError as the
claim states. -/
theorem client_ack_trailing_data (now : Nat) (aR data : List Nat)
    (s : NegotiatorState) (msyn psyn A : Packet) (v : Nat) (rest : List Nat)
    (hstart : s.started = true) (hv : s.peer_version = some v) (hv0 : v ≠ 0)
    (hmy : s.my_syn = some msyn) (hps : s.peer_syn = some psyn)
    (hpa : s.peer_ack = none)
    (hlen : HANDSHAKE_LENGTH ≤ (s.buffer ++ data).length)
    (hdec : Packet.decode now (s.buffer ++ data) = some (A, rest))
    (hrest : rest ≠ []) :
    (ClientNegotiator.dataReceived now aR s data).2 =
      [.handshakeFailure
        (.handshakeError "Unexpected trailing data after peer ack")] :=
  (client_ack_run now aR data s msyn psyn A v rest hstart hv hv0 hmy hps hpa
    hlen hdec).1 hrest

/-- C6 witness: the concrete negotiator receiving the peer ack followed by
one trailing byte fails with the generic HandshakeError. -/
theorem client_ack_trailing_data_witness :
    (ClientNegotiator.dataReceived 42 (List.replicate 1528 5) ackNeg
        (ackData ++ [1])).2 =
      [.handshakeFailure
        (.handshakeError "Unexpected trailing data after peer ack")] :=
  client_ack_trailing_data 42 (List.replicate 1528 5) (ackData ++ [1]) ackNeg
    mySynW peerSynW ackA 3 [1] rfl rfl (by decide) rfl rfl rfl
    (by simp only [show ackNeg.buffer = [] from rfl, List.nil_append,
      List.length_append, ackData_length, List.length_singleton]; omega)
    (by simpa [ackNeg] using ackData_decode_append [1]) (by decide)

/-- C6 counterexample: at a concrete input with one trailing byte after the
peer ack, the reported exception is the generic HandshakeError
("Unexpected trailing data after peer ack"), which is not a
VerificationError — refuting the claim that trailing data fails with a
VerificationError. -/
theorem client_ack_trailing_counterexample :
    (ClientNegotiator.dataReceived 42 (List.replicate 1528 5) ackNeg
        (ackData ++ [0])).2 =
      [.handshakeFailure
        (.handshakeError "Unexpected trailing data after peer ack")] ∧
    (HSError.handshakeError
        "Unexpected trailing data after peer ack").isVerificationError =
      false :=
  ⟨(client_ack_run 42 (List.replicate 1528 5) (ackData ++ [0]) ackNeg mySynW
      peerSynW ackA 3 [0] rfl rfl (by decide) rfl rfl rfl
      (by simp only [show ackNeg.buffer = [] from rfl, List.nil_append,
        List.length_append, ackData_length, List.length_singleton]; omega)
      (by simpa [ackNeg] using ackData_decode_append [0])).1 (by decide),
   rfl⟩

theorem ackReceived_events_no_failure (now : Nat) (aR : List Nat)
    (s : NegotiatorState) :
    ∀ e ∈ (ClientNegotiator.ackReceived now aR s).2.1, e.isFailure = false := by
  unfold ClientNegotiator.ackReceived
  cases hm : s.my_syn <;> cases hp : s.peer_syn <;> cases hq : s.peer_ack <;>
    dsimp only <;>
    first
      | (split_ifs <;> simp [Event.isFailure])
      | simp [Event.isFailure]

theorem processAck_events_no_failure (now : Nat) (aR : List Nat)
    (s : NegotiatorState) :
    ∀ e ∈ (ClientNegotiator.processAck now aR s).2.1, e.isFailure = false := by
  unfold ClientNegotiator.processAck
  cases hq : s.peer_ack with
  | some p => simp [Event.isFailure]
  | none =>
    cases hg : getPeerPacket now s.buffer with
    | none => simp
    | some pr =>
      obtain ⟨p, rest⟩ := pr
      have hnf := ackReceived_events_no_failure now aR
        { s with peer_ack := some p, buffer := rest }
      rcases hA : ClientNegotiator.ackReceived now aR
          { s with peer_ack := some p, buffer := rest } with ⟨s2, evs, err⟩
      rw [hA] at hnf
      dsimp only
      rw [hA]
      cases err with
      | some e => simpa using hnf
      | none =>
        intro ev hev
        simp only [List.mem_append, List.mem_singleton] at hev
        rcases hev with h | h
        · exact hnf ev h
        · rw [h]
          rfl

theorem processSyn_events_no_failure (now : Nat) (aR : List Nat)
    (s : NegotiatorState) :
    ∀ e ∈ (ClientNegotiator.processSyn now aR s).2.1, e.isFailure = false := by
  unfold ClientNegotiator.processSyn
  cases hp : s.peer_syn with
  | some p => exact processAck_events_no_failure now aR s
  | none =>
    cases hg : getPeerPacket now s.buffer with
    | none => simp
    | some pr =>
      obtain ⟨p, rest⟩ := pr
      dsimp only
      exact processAck_events_no_failure now aR _

theorem process_events_no_failure (now : Nat) (aR : List Nat)
    (s : NegotiatorState) :
    ∀ e ∈ (ClientNegotiator.process now aR s).2.1, e.isFailure = false := by
  unfold ClientNegotiator.process
  by_cases hfv : s.peer_version = none ∨ s.peer_version = some 0
  · rw [if_pos hfv]
    cases hb : s.buffer with
    | nil => simp
    | cons b rest =>
      dsimp only
      cases hvr : ClientNegotiator.versionReceived b with
      | some e => simp [hvr]
      | none =>
        simp only [hvr]
        exact processSyn_events_no_failure now aR _
  · rw [if_neg hfv]
    exact processSyn_events_no_failure now aR s

/-- C4: every exception raised while the negotiator processes received data
is caught inside dataReceived and reported to the observer through exactly
one handshakeFailure callback: the emitted event list contains exactly one
handshakeFailure when the negotiator was not started or processing raised,
and none otherwise.  dataReceived is a total function (it returns a plain
state/event pair), so no exception propagates to its caller. -/
theorem dataReceived_reports_failures_once (now : Nat) (aR : List Nat)
    (s : NegotiatorState) (data : List Nat) :
    (ClientNegotiator.dataReceived now aR s data).2.countP Event.isFailure =
      if s.started = false then 1
      else if (ClientNegotiator.process now aR
          { s with buffer := s.buffer ++ data }).2.2.isSome then 1 else 0 := by
  unfold ClientNegotiator.dataReceived
  by_cases hst : s.started = false
  · rw [if_pos hst, if_pos hst]
    rfl
  · rw [if_neg hst, if_neg hst]
    have hnf := process_events_no_failure now aR
      { s with buffer := s.buffer ++ data }
    rcases hP : ClientNegotiator.process now aR
        { s with buffer := s.buffer ++ data } with ⟨s1, evs, err⟩
    rw [hP] at hnf
    have hc : evs.countP Event.isFailure = 0 := by
      rw [List.countP_eq_zero]
      intro a ha
      simp [hnf a ha]
    cases err with
    | none => simpa using hc
    | some e =>
      dsimp only
      rw [List.countP_append, hc]
      rfl

/-- C7: on handshakeSuccess the protocol session switches to the streaming
phase, discards the negotiator, and replays every residual byte the
negotiator still held into the newly constructed stream decoder — the bytes
are appended to the decoder input, not dropped. -/
theorem handshakeSuccess_replays_buffer (s : ProtocolState) (b : List Nat)
    (h : s.handshakerBuffer = some b) :
    (BaseProtocol.handshakeSuccess s).state = "stream" ∧
    (BaseProtocol.handshakeSuccess s).decoderBuilt = true ∧
    (BaseProtocol.handshakeSuccess s).handshakerBuffer = none ∧
    (BaseProtocol.handshakeSuccess s).decoderInput = s.decoderInput ++ b := by
  refine ⟨rfl, rfl, rfl, ?_⟩
  simp [BaseProtocol.handshakeSuccess, h]

/-- C7 witness: a session whose negotiator holds the three bytes of "foo"
replays exactly those bytes into the decoder. -/
theorem handshakeSuccess_replays_buffer_witness :
    (BaseProtocol.handshakeSuccess
        { state := "handshake", handshakerBuffer := some [102, 111, 111],
          decoderBuilt := false, decoderInput := [] }).state = "stream" ∧
    (BaseProtocol.handshakeSuccess
        { state := "handshake", handshakerBuffer := some [102, 111, 111],
          decoderBuilt := false, decoderInput := [] }).decoderBuilt = true ∧
    (BaseProtocol.handshakeSuccess
        { state := "handshake", handshakerBuffer := some [102, 111, 111],
          decoderBuilt := false, decoderInput := [] }).handshakerBuffer =
      none ∧
    (BaseProtocol.handshakeSuccess
        { state := "handshake", handshakerBuffer := some [102, 111, 111],
          decoderBuilt := false, decoderInput := [] }).decoderInput =
      [] ++ [102, 111, 111] :=
  handshakeSuccess_replays_buffer
    { state := "handshake", handshakerBuffer := some [102, 111, 111],
      decoderBuilt := false, decoderInput := [] } [102, 111, 111] rfl

theorem lookup_filter_ne {β : Type} (l : List (Nat × β)) (k : Nat) :
    (l.filter (fun kv => kv.1 != k)).lookup k = none := by
  induction l with
  | nil => rfl
  | cons a t ih =>
    obtain ⟨a1, a2⟩ := a
    rw [List.filter_cons]
    by_cases hak : a1 = k
    · simp only [hak, bne_self_eq_false, if_false, Bool.false_eq_true]
      exact ih
    · rw [if_pos (by simpa using bne_iff_ne.mpr hak)]
      have hne : (k == a1) = false := beq_eq_false_iff_ne.mpr fun h => hak h.symm
      simp only [List.lookup, hne]
      exact ih

/-- C8: handleResponse with an unrecognised response kind for a currently
pending call id removes the call from active tracking while neither
resolving nor rejecting its result handle. -/
theorem handleResponse_unknown_kind (h : CallHandler) (kind : String)
    (callId : Nat) (args : List String)
    (hactive : h.isCallActive callId = true)
    (hk1 : kind ≠ "_result") (hk2 : kind ≠ "_error") :
    (h.handleResponse kind callId args).1.isCallActive callId = false ∧
    (h.handleResponse kind callId args).2 = .noAction := by
  unfold CallHandler.isCallActive at hactive ⊢
  unfold CallHandler.handleResponse CallHandler.finishCall
  rcases hl : h.activeCalls.lookup callId with _ | ctx
  · rw [hl] at hactive
    simp at hactive
  · dsimp only
    rw [if_neg hk1, if_neg hk2]
    refine ⟨?_, rfl⟩
    rw [lookup_filter_ne]
    rfl

/-- C8 witness: the concrete handler with pending call 1 receiving a
response of unknown kind "foo". -/
theorem handleResponse_unknown_kind_witness :
    (handlerW.handleResponse "foo" 1 ["some result"]).1.isCallActive 1 =
      false ∧
    (handlerW.handleResponse "foo" 1 ["some result"]).2 = .noAction :=
  handleResponse_unknown_kind handlerW "foo" 1 ["some result"] rfl
    (by decide) (by decide)

theorem lookup_append_none {β : Type} (l1 l2 : List (Int × β)) (k : Int)
    (h : l1.lookup k = none) : (l1 ++ l2).lookup k = l2.lookup k := by
  induction l1 with
  | nil => simp
  | cons a t ih =>
    obtain ⟨a1, a2⟩ := a
    rw [List.cons_append]
    by_cases hk : (k == a1) = true
    · simp only [List.lookup, hk] at h
      simp at h
    · have hk2 : (k == a1) = false := by simpa using hk
      simp only [List.lookup, hk2] at h ⊢
      exact ih h

theorem lookup_append_some {β : Type} (l1 l2 : List (Int × β)) (k : Int)
    (v : β) (h : l1.lookup k = some v) : (l1 ++ l2).lookup k = some v := by
  induction l1 with
  | nil => simp at h
  | cons a t ih =>
    obtain ⟨a1, a2⟩ := a
    rw [List.cons_append]
    by_cases hk : (k == a1) = true
    · simp only [List.lookup, hk] at h ⊢
      exact h
    · have hk2 : (k == a1) = false := by simpa using hk
      simp only [List.lookup, hk2] at h ⊢
      exact ih h

theorem lookup_singleton_self {β : Type} (k : Int) (v : β) :
    ([(k, v)] : List (Int × β)).lookup k = some v := by
  simp [List.lookup]

theorem lookup_singleton_ne {β : Type} (k1 k2 : Int) (v : β) (h : k1 ≠ k2) :
    ([(k2, v)] : List (Int × β)).lookup k1 = none := by
  simp [List.lookup, beq_eq_false_iff_ne.mpr h]

/-- C9: registerStream fails with a range error for every id outside
[0, 65535], with a type error when the handle lacks the stream capability
set, and with an already-registered error when the id is occupied, leaving
the stream registry unchanged in each failure case; registering the same
handle under two different free ids succeeds, with both ids resolving to
that handle. -/
theorem registerStream_spec :
    (∀ (c : BaseCodec) (i : Int) (st : Stream), (i < 0 ∨ 65535 < i) →
      c.registerStream i st =
        (c, some (.rangeError "streamId is not in range"))) ∧
    (∀ (c : BaseCodec) (i : Int) (st : Stream), 0 ≤ i → i ≤ 65535 →
      st.providesIStream = false →
      c.registerStream i st =
        (c, some (.typeError "IStream interface expected"))) ∧
    (∀ (c : BaseCodec) (i : Int) (st : Stream), 0 ≤ i → i ≤ 65535 →
      st.providesIStream = true → (c.streams.lookup i).isSome = true →
      c.registerStream i st =
        (c, some (.alreadyRegistered "Stream already registered"))) ∧
    (∀ (c : BaseCodec) (i1 i2 : Int) (st : Stream), 0 ≤ i1 → i1 ≤ 65535 →
      0 ≤ i2 → i2 ≤ 65535 → i1 ≠ i2 → st.providesIStream = true →
      c.streams.lookup i1 = none → c.streams.lookup i2 = none →
      ((c.registerStream i1 st).1.registerStream i2 st).2 = none ∧
      ((c.registerStream i1 st).1.registerStream i2 st).1.streams.lookup i1 =
        some st ∧
      ((c.registerStream i1 st).1.registerStream i2 st).1.streams.lookup i2 =
        some st) := by
  refine ⟨?_, ?_, ?_, ?_⟩
  · intro c i st h
    unfold BaseCodec.registerStream
    rw [if_pos h]
  · intro c i st h1 h2 h3
    unfold BaseCodec.registerStream
    rw [if_neg (by omega), if_pos h3]
  · intro c i st h1 h2 h3 h4
    unfold BaseCodec.registerStream
    rw [if_neg (by omega), if_neg (by simp [h3]), if_pos h4]
  · intro c i1 i2 st h1a h1b h2a h2b hne hst hl1 hl2
    have hreg1 : c.registerStream i1 st =
        ({ streams := c.streams ++ [(i1, st)] }, none) := by
      unfold BaseCodec.registerStream
      rw [if_neg (by omega), if_neg (by simp [hst]), if_neg (by simp [hl1])]
    have hlook2 : (c.streams ++ [(i1, st)]).lookup i2 = none := by
      rw [lookup_append_none _ _ _ hl2]
      exact lookup_singleton_ne _ _ _ (Ne.symm hne)
    have hreg2 :
        (BaseCodec.mk (c.streams ++ [(i1, st)])).registerStream i2 st =
          ({ streams := (c.streams ++ [(i1, st)]) ++ [(i2, st)] }, none) := by
      unfold BaseCodec.registerStream
      rw [if_neg (by omega), if_neg (by simp [hst]),
        if_neg (by simp [hlook2])]
    rw [hreg1]
    dsimp only
    rw [hreg2]
    dsimp only
    refine ⟨rfl, ?_, ?_⟩
    · refine lookup_append_some _ _ _ _ ?_
      rw [lookup_append_none _ _ _ hl1]
      exact lookup_singleton_self _ _
    · rw [lookup_append_none _ _ _ hlook2]
      exact lookup_singleton_self _ _

/-- C9 witness: the concrete registry rejecting id -1 (range), a
non-stream handle (type) and an occupied id 3 (already registered), and
accepting the same stream under ids 1 and 2 with both resolving to it. -/
theorem registerStream_spec_witness :
    codecW.registerStream (-1) streamW =
      (codecW, some (.rangeError "streamId is not in range")) ∧
    codecW.registerStream 0 nonStreamW =
      (codecW, some (.typeError "IStream interface expected")) ∧
    (BaseCodec.mk [((3 : Int), streamW)]).registerStream 3 streamW =
      (BaseCodec.mk [((3 : Int), streamW)],
       some (.alreadyRegistered "Stream already registered")) ∧
    ((codecW.registerStream 1 streamW).1.registerStream 2 streamW).2 =
      none ∧
    ((codecW.registerStream 1
        streamW).1.registerStream 2 streamW).1.streams.lookup 1 =
      some streamW ∧
    ((codecW.registerStream 1
        streamW).1.registerStream 2 streamW).1.streams.lookup 2 =
      some streamW := by
  have h := registerStream_spec
  have h4 := h.2.2.2 codecW 1 2 streamW (by norm_num) (by norm_num)
    (by norm_num) (by norm_num) (by norm_num) rfl rfl rfl
  exact ⟨h.1 codecW (-1) streamW (by norm_num),
    h.2.1 codecW 0 nonStreamW (by norm_num) (by norm_num) rfl,
    h.2.2.1 _ 3 streamW (by norm_num) (by norm_num) rfl rfl,
    h4.1, h4.2.1, h4.2.2⟩

end RTMPy
